import Mathlib

/-!
Verification of the motion-detection engine of the scout device
(`src/scout_arduino/motion_detect.h`), as a shallow embedding.

Machine integers are modelled as `Nat` with explicit `% 2^w` at the points
where the C code can overflow (the `uint16_t` per-block pixel count, the
`uint8_t` truncation of the per-block average, the `uint32_t` millisecond
clock).  `float` fields (`sizePercent`, `confidence`, the configured size
bounds, the JPEG deviation) are modelled as `ℚ`; every value the claims
mention is an exact dyadic rational, so the rational model agrees with the
IEEE computation on the inputs considered here.  Division by zero, which is
undefined behaviour in C, is made explicit: the detection step returns
`Option`, with `none` marking the undefined-behaviour path.

Pixel buffers are total functions `Nat → Nat`; each read is truncated with
`% 256` (a byte read).  The allocator and the clock are external
collaborators, so each call takes the allocation outcomes (`psramOk`,
`ramOk`) and the current millisecond reading `now` as parameters.  The
JPEG-size history of `detectFromJpegSize` is *function-local static* state
in the C code, shared across all detector instances and untouched by
`reset()`; it is therefore modelled as a separate `JpegStatics` value that
is threaded next to, not inside, the `DetectorState`.
-/

namespace Scout

/-- Configuration of the motion detector (`MotionConfig` in the source).
`threshold` is `uint8_t`, `blockSize` and `cooldownMs` are `uint16_t`,
the two size bounds are `float` (`ℚ` here). -/
structure MotionConfig where
  threshold : Nat
  minSizePercent : ℚ
  maxSizePercent : ℚ
  blockSize : Nat
  cooldownMs : Nat
deriving DecidableEq, Repr

/-- Result of one detection call (`MotionResult` in the source). -/
structure MotionResult where
  detected : Bool
  sizeFiltered : Bool
  x : Nat
  y : Nat
  width : Nat
  height : Nat
  sizePercent : ℚ
  changedBlocks : Nat
  totalBlocks : Nat
  confidence : ℚ
deriving DecidableEq, Repr

/-- The zero-initialised result `{false, false, 0, 0, 0, 0, 0.0, 0, 0, 0.0}`
built at the top of `detect` and `detectFromJpegSize`. -/
def emptyResult : MotionResult :=
  { detected := false, sizeFiltered := false, x := 0, y := 0, width := 0,
    height := 0, sizePercent := 0, changedBlocks := 0, totalBlocks := 0,
    confidence := 0 }

/-- Pixel formats relevant to the engine; `other` stands for every format
that is neither grayscale nor JPEG. -/
inductive PixFormat where
  | grayscale
  | jpeg
  | other
deriving DecidableEq, Repr

/-- A camera frame descriptor (`camera_fb_t`): format, dimensions, data
pointer (possibly null, hence `Option`) and byte length. -/
structure Frame where
  format : PixFormat
  width : Nat
  height : Nat
  buf : Option (Nat → Nat)
  len : Nat

/-- Member state of a `MotionDetector` object: configuration, previous-frame
buffer with its dimensions, and the cooldown timestamp. -/
structure DetectorState where
  config : MotionConfig
  prevFrame : Option (Nat → Nat)
  prevWidth : Nat
  prevHeight : Nat
  lastDetectionTime : Nat

/-- The function-local `static` variables of `detectFromJpegSize`:
`prevJpegSize`, the five-slot `jpegSizeHistory` ring, and its cursor.
They live outside the object, persist across `reset()`, and are shared by
all detector instances. -/
structure JpegStatics where
  prevJpegSize : Nat
  hist : List Nat
  historyIdx : Nat
deriving DecidableEq, Repr

/-- Default configuration installed by the constructor. -/
def defaultConfig : MotionConfig :=
  { threshold := 25, minSizePercent := 1, maxSizePercent := 30,
    blockSize := 16, cooldownMs := 2000 }

/-- Detector state right after construction. -/
def initialState : DetectorState :=
  { config := defaultConfig, prevFrame := none, prevWidth := 0,
    prevHeight := 0, lastDetectionTime := 0 }

/-- Static JPEG-heuristic state at program start (zero-initialised). -/
def initJpegStatics : JpegStatics :=
  { prevJpegSize := 0, hist := [0, 0, 0, 0, 0], historyIdx := 0 }

/-- `setConfig`. -/
def setConfig (s : DetectorState) (cfg : MotionConfig) : DetectorState :=
  { s with config := cfg }

/-- `reset()`: frees the previous-frame buffer, zeroes the stored
dimensions and the cooldown timestamp.  It has no access to the static
JPEG state. -/
def reset (s : DetectorState) : DetectorState :=
  { s with
    prevFrame := none, prevWidth := 0, prevHeight := 0,
    lastDetectionTime := 0 }

/-- 2^32, the modulus of the `uint32_t` millisecond clock. -/
def M32 : Nat := 4294967296

/-- The `uint32_t` subtraction `millis() - lastDetectionTime` used for the
cooldown test. -/
def u32elapsed (now last : Nat) : Nat :=
  (now % M32 + (M32 - last % M32)) % M32

/-- A byte read from a buffer (`uint8_t` access). -/
def pix (f : Nat → Nat) (i : Nat) : Nat := f i % 256

/-- `abs((int)a - (int)b)` on two byte values. -/
def pdiff (a b : Nat) : Nat := max a b - min a b

/-- `uint16_t pixelsInBlock = config.blockSize * config.blockSize`: the
product of two `uint16_t` values stored back into a `uint16_t`, hence the
wrap at 65536. -/
def pixelsInBlock (bs : Nat) : Nat := bs * bs % 65536

/-- Sum of absolute pixel differences over one `blockSize × blockSize`
block (the inner double loop accumulating `blockDiff`).  Indexing follows
`idx = (bj*bs + py) * width + (bi*bs + px)`. -/
def blockDiffSum (cur prev : Nat → Nat) (width bs bi bj : Nat) : Nat :=
  ∑ py ∈ Finset.range bs, ∑ px ∈ Finset.range bs,
    pdiff (pix cur ((bj * bs + py) * width + (bi * bs + px)))
          (pix prev ((bj * bs + py) * width + (bi * bs + px)))

/-- `uint8_t avgDiff = blockDiff / pixelsInBlock`: truncating division
followed by the `uint8_t` narrowing. -/
def avgDiff (cur prev : Nat → Nat) (width bs bi bj : Nat) : Nat :=
  blockDiffSum cur prev width bs bi bj / pixelsInBlock bs % 256

/-- The test `avgDiff > config.threshold` deciding that block `(bi, bj)`
changed. -/
def isChangedBlock (cfg : MotionConfig) (cur prev : Nat → Nat)
    (width bi bj : Nat) : Bool :=
  decide (cfg.threshold < avgDiff cur prev width cfg.blockSize bi bj)

/-- The changed blocks in loop order: for each row `bj`, the changed
column indices `bi`, as coordinate pairs `(bi, bj)`. -/
def changedCoords (cfg : MotionConfig) (cur prev : Nat → Nat)
    (width blocksX blocksY : Nat) : List (Nat × Nat) :=
  (List.range blocksY).flatMap (fun bj =>
    ((List.range blocksX).filter
        (fun bi => isChangedBlock cfg cur prev width bi bj)).map
      (fun bi => (bi, bj)))

/-- The size filter of `detect` (lines 162–173): a measured `sizePercent`
below the minimum or above the maximum clears `detected` and marks the
result size-filtered; the other fields are untouched. -/
def applySizeFilter (cfg : MotionConfig) (r : MotionResult) : MotionResult :=
  if r.sizePercent < cfg.minSizePercent then
    { r with sizeFiltered := true, detected := false }
  else if cfg.maxSizePercent < r.sizePercent then
    { r with sizeFiltered := true, detected := false }
  else r

/-- The raw measured detection assembled when `changedBlocks > 0`
(lines 148–177, before the size filter forces any field): bounding box from
the extreme changed-block coordinates, area percentage, block counts and
confidence `min(1, changed/total * 5)`. -/
def rawDetection (cfg : MotionConfig) (cur prev : Nat → Nat)
    (width height : Nat) : MotionResult :=
  let blocksX := width / cfg.blockSize
  let blocksY := height / cfg.blockSize
  let coords := changedCoords cfg cur prev width blocksX blocksY
  let minX := coords.foldl (fun m p => min m p.1) blocksX
  let minY := coords.foldl (fun m p => min m p.2) blocksY
  let maxX := coords.foldl (fun m p => max m p.1) 0
  let maxY := coords.foldl (fun m p => max m p.2) 0
  let bw := (maxX - minX + 1) * cfg.blockSize
  let bh := (maxY - minY + 1) * cfg.blockSize
  { detected := true, sizeFiltered := false,
    x := minX * cfg.blockSize, y := minY * cfg.blockSize,
    width := bw, height := bh,
    sizePercent := ((bw : ℚ) * (bh : ℚ)) / ((width : ℚ) * (height : ℚ)) * 100,
    changedBlocks := coords.length, totalBlocks := blocksX * blocksY,
    confidence := min 1 ((coords.length : ℚ) / ((blocksX * blocksY : Nat) : ℚ) * 5) }

/-- The grayscale block comparison of `detect` (lines 110–187), for a
current frame and a previous frame of the same stored dimensions.  Returns
`none` on the C-undefined paths: `blockSize = 0` (division by zero in the
grid computation) and `pixelsInBlock = 0` with a non-empty grid (the
`uint16_t` wrap making `blockDiff / pixelsInBlock` a division by zero).
In the source the confidence is assigned after the size filter; the filter
does not read or write `confidence`, so the composition below reproduces
the final field values exactly. -/
def compareFrames (cfg : MotionConfig) (cur prev : Nat → Nat)
    (width height : Nat) : Option MotionResult :=
  if cfg.blockSize = 0 then none
  else if pixelsInBlock cfg.blockSize = 0 ∧
      0 < width / cfg.blockSize ∧ 0 < height / cfg.blockSize then none
  else if (changedCoords cfg cur prev width (width / cfg.blockSize)
      (height / cfg.blockSize)).length = 0 then
    some { emptyResult with
            totalBlocks := width / cfg.blockSize * (height / cfg.blockSize) }
  else
    some { applySizeFilter cfg
            { rawDetection cfg cur prev width height with confidence := 0 }
          with confidence := (rawDetection cfg cur prev width height).confidence }

/-- `allocatePrevFrame` (lines 276–298): the old buffer is freed, PSRAM is
tried first and the general heap second; on success the stored dimensions
are set, on total failure the buffer stays null and the dimensions are
cleared.  The fresh allocation is uninitialised; `detect` overwrites it
immediately, so its placeholder content never escapes. -/
def allocatePrevFrame (s : DetectorState) (width height : Nat)
    (psramOk ramOk : Bool) : DetectorState :=
  if psramOk || ramOk then
    { s with
      prevFrame := some (fun _ => 0),
      prevWidth := width, prevHeight := height }
  else
    { s with prevFrame := none, prevWidth := 0, prevHeight := 0 }

/-- The first-observation branch of `detect` (lines 101–108): allocate,
then `memcpy` the current frame into the buffer when allocation
succeeded. -/
def firstObservation (s : DetectorState) (buf : Nat → Nat)
    (width height : Nat) (psramOk ramOk : Bool) : DetectorState :=
  let s1 := allocatePrevFrame s width height psramOk ramOk
  match s1.prevFrame with
  | some _ => { s1 with prevFrame := some buf }
  | none => s1

/-- `detectFromJpegSize` (lines 194–257): record the length in the ring,
average the non-zero entries (integer division), warm up until
`prevJpegSize ≠ 0` and at least 3 non-zero entries, then judge the
relative deviation of the current length from the average.  The noise test
`sizeDiff < 3` and the scene-cut test `sizeDiff > 50` sit inside the
`sizeDiff > 10` branch, exactly as in the source. -/
def detectFromJpegSize (s : DetectorState) (j : JpegStatics) (frame : Frame)
    (now : Nat) : MotionResult × DetectorState × JpegStatics :=
  let hist1 := j.hist.set j.historyIdx frame.len
  let idx1 := (j.historyIdx + 1) % 5
  let valid := hist1.filter (fun v => decide (0 < v))
  let avgSize := if 0 < valid.length then valid.sum / valid.length else 0
  if j.prevJpegSize = 0 ∨ valid.length < 3 then
    (emptyResult, s, { prevJpegSize := frame.len, hist := hist1, historyIdx := idx1 })
  else
    let sizeDiff : ℚ := |(frame.len : ℚ) - (avgSize : ℚ)| / (avgSize : ℚ) * 100
    if 10 < sizeDiff then
      let r1 : MotionResult :=
        { detected := true, sizeFiltered := false,
          x := frame.width / 4, y := frame.height / 4,
          width := frame.width / 2, height := frame.height / 2,
          sizePercent := sizeDiff, changedBlocks := 0, totalBlocks := 0,
          confidence := min 1 (sizeDiff / 30) }
      let r2 := if sizeDiff < 3 then { r1 with sizeFiltered := true, detected := false }
        else if 50 < sizeDiff then { r1 with sizeFiltered := true, detected := false }
        else r1
      let s2 := if r2.detected then { s with lastDetectionTime := now % M32 } else s
      (r2, s2, { prevJpegSize := frame.len, hist := hist1, historyIdx := idx1 })
    else
      (emptyResult, s, { prevJpegSize := frame.len, hist := hist1, historyIdx := idx1 })

/-- `detect` (lines 71–188): reject invalid frames, gate on the cooldown,
dispatch JPEG frames to the size heuristic, reject unsupported formats,
store a baseline on the first observation or any dimension change, and
otherwise run the block comparison; the baseline is refreshed and, when
the filtered result is accepted, the cooldown timestamp is set.  `none`
marks the undefined-behaviour path of `compareFrames`. -/
def detect (s : DetectorState) (j : JpegStatics) (frame : Frame) (now : Nat)
    (psramOk ramOk : Bool) :
    Option (MotionResult × DetectorState × JpegStatics) :=
  match frame.buf with
  | none => some (emptyResult, s, j)
  | some buf =>
    if frame.len = 0 then some (emptyResult, s, j)
    else if u32elapsed now s.lastDetectionTime < s.config.cooldownMs then
      some (emptyResult, s, j)
    else if frame.format = PixFormat.jpeg then
      some (detectFromJpegSize s j frame now)
    else if frame.format ≠ PixFormat.grayscale then
      some (emptyResult, s, j)
    else
      match s.prevFrame with
      | none =>
        some (emptyResult,
          firstObservation s buf frame.width frame.height psramOk ramOk, j)
      | some prev =>
        if s.prevWidth ≠ frame.width ∨ s.prevHeight ≠ frame.height then
          some (emptyResult,
            firstObservation s buf frame.width frame.height psramOk ramOk, j)
        else
          match compareFrames s.config buf prev frame.width frame.height with
          | none => none
          | some r =>
            some (r,
              { s with
                prevFrame := some buf,
                lastDetectionTime :=
                  if r.detected then now % M32 else s.lastDetectionTime }, j)

/-- Result component of a detection step, `emptyResult` on the
undefined-behaviour path (used only where the step is separately shown to
be defined). -/
def resultOf (o : Option (MotionResult × DetectorState × JpegStatics)) :
    MotionResult :=
  match o with
  | some (r, _, _) => r
  | none => emptyResult

/-- State component of a detection step, with a fallback default. -/
def stateOf (o : Option (MotionResult × DetectorState × JpegStatics))
    (d : DetectorState) : DetectorState :=
  match o with
  | some (_, t, _) => t
  | none => d

/-- Statics component of a detection step, with a fallback default. -/
def staticsOf (o : Option (MotionResult × DetectorState × JpegStatics))
    (d : JpegStatics) : JpegStatics :=
  match o with
  | some (_, _, k) => k
  | none => d

/-- Number of grid blocks satisfying a predicate, summed row by row in the
loop order of `detect`. -/
def countGrid (p : Nat → Nat → Bool) (blocksX blocksY : Nat) : Nat :=
  ((List.range blocksY).map
    (fun bj => ((List.range blocksX).filter (fun bi => p bi bj)).length)).sum

/-- The block-changed criterion as the spec words it: the exact (rational)
mean absolute pixel difference of the block exceeds the threshold.  Stated
from the spec for comparison with `isChangedBlock`, which is the
translation of the source. -/
def specExactMeanChanged (cfg : MotionConfig) (cur prev : Nat → Nat)
    (width bi bj : Nat) : Bool :=
  decide ((cfg.threshold : ℚ) <
    (blockDiffSum cur prev width cfg.blockSize bi bj : ℚ) /
      ((cfg.blockSize : ℚ) * (cfg.blockSize : ℚ)))

/-- The block-changed criterion actually computed by the source: the
truncated integer mean `blockDiff / blockSize²` exceeds the threshold. -/
def truncMeanChanged (cfg : MotionConfig) (cur prev : Nat → Nat)
    (width bi bj : Nat) : Bool :=
  decide (cfg.threshold <
    blockDiffSum cur prev width cfg.blockSize bi bj /
      (cfg.blockSize * cfg.blockSize))

/-! ### Concrete scenarios used by the claims -/

/-- All-zero 64×64 baseline buffer. -/
def c1_buf0 : Nat → Nat := fun _ => 0

/-- All-zero 64×64 grayscale frame. -/
def c1_frame0 : Frame :=
  { format := PixFormat.grayscale, width := 64, height := 64,
    buf := some c1_buf0, len := 4096 }

/-- 64×64 buffer equal to the baseline except the grid-aligned 16×16 block
at block coordinates (1, 1) (pixels 16–31 in both axes), set to 100. -/
def c1_buf1 : Nat → Nat := fun i =>
  if 16 ≤ i % 64 ∧ i % 64 < 32 ∧ 16 ≤ i / 64 ∧ i / 64 < 32 then 100 else 0

/-- The frame carrying `c1_buf1`. -/
def c1_frame1 : Frame :=
  { format := PixFormat.grayscale, width := 64, height := 64,
    buf := some c1_buf1, len := 4096 }

/-- First call of the localized-change scenario: stores the baseline. -/
def c1_run1 : Option (MotionResult × DetectorState × JpegStatics) :=
  detect initialState initJpegStatics c1_frame0 2000 true true

/-- Detector state after the baseline call. -/
def c1_s1 : DetectorState := stateOf c1_run1 initialState

/-- Second call of the localized-change scenario: compares against the
baseline. -/
def c1_run2 : Option (MotionResult × DetectorState × JpegStatics) :=
  detect c1_s1 initJpegStatics c1_frame1 4000 true true

/-- All-zero 16×16 baseline buffer for the block-counting scenario. -/
def c2_buf0 : Nat → Nat := fun _ => 0

/-- All-zero 16×16 grayscale frame. -/
def c2_frame0 : Frame :=
  { format := PixFormat.grayscale, width := 16, height := 16,
    buf := some c2_buf0, len := 256 }

/-- 16×16 buffer whose single block differs from the zero baseline by a
total of `25·255 + 26 = 6401`: the exact mean difference is
`6401/256 ≈ 25.004`, strictly above the threshold 25, while the truncated
integer mean is exactly 25. -/
def c2_buf1 : Nat → Nat := fun i =>
  if i < 25 then 255 else if i = 25 then 26 else 0

/-- The frame carrying `c2_buf1`. -/
def c2_frame1 : Frame :=
  { format := PixFormat.grayscale, width := 16, height := 16,
    buf := some c2_buf1, len := 256 }

/-- Baseline call of the block-counting scenario. -/
def c2_run1 : Option (MotionResult × DetectorState × JpegStatics) :=
  detect initialState initJpegStatics c2_frame0 2000 true true

/-- Detector state after the baseline call. -/
def c2_s1 : DetectorState := stateOf c2_run1 initialState

/-- Comparison call of the block-counting scenario. -/
def c2_run2 : Option (MotionResult × DetectorState × JpegStatics) :=
  detect c2_s1 initJpegStatics c2_frame1 4000 true true

/-- A JPEG frame of 100 bytes, used to warm up the size history. -/
def jwu_f100 : Frame :=
  { format := PixFormat.jpeg, width := 64, height := 64,
    buf := some (fun _ => 0), len := 100 }

/-- Warm-up call 1 on the encoded path. -/
def jwu_run1 : Option (MotionResult × DetectorState × JpegStatics) :=
  detect initialState initJpegStatics jwu_f100 5000 true true

/-- JPEG statics after warm-up call 1. -/
def jwu_j1 : JpegStatics := staticsOf jwu_run1 initJpegStatics

/-- Warm-up call 2 on the encoded path. -/
def jwu_run2 : Option (MotionResult × DetectorState × JpegStatics) :=
  detect initialState jwu_j1 jwu_f100 5000 true true

/-- JPEG statics after warm-up call 2. -/
def jwu_j2 : JpegStatics := staticsOf jwu_run2 initJpegStatics

/-- Warm-up call 3 on the encoded path; after it the history holds three
non-zero entries and `prevJpegSize = 100`, so warm-up is complete. -/
def jwu_run3 : Option (MotionResult × DetectorState × JpegStatics) :=
  detect initialState jwu_j2 jwu_f100 5000 true true

/-- JPEG statics after warm-up: `⟨100, [100, 100, 100, 0, 0], 3⟩`. -/
def jwu_j3 : JpegStatics := staticsOf jwu_run3 initJpegStatics

/-- A JPEG frame of 102 bytes: against the history `[100, 100, 100]` the
rolling average (102 included) is `402 / 4 = 100`, so the deviation is
exactly `|102 − 100| / 100 · 100 = 2` percent. -/
def c3_f102 : Frame :=
  { format := PixFormat.jpeg, width := 64, height := 64,
    buf := some (fun _ => 0), len := 102 }

/-- The encoded-path call with a 2 % deviation after completed warm-up. -/
def c3_run4 : Option (MotionResult × DetectorState × JpegStatics) :=
  detect initialState jwu_j3 c3_f102 5000 true true

/-- A JPEG frame of 160 bytes: against the history `[100, 100, 100]` the
rolling average is `460 / 4 = 115` and the deviation `4500/115 ≈ 39.1` percent,
inside the accepted band (10, 50]. -/
def c4_f160 : Frame :=
  { format := PixFormat.jpeg, width := 64, height := 64,
    buf := some (fun _ => 0), len := 160 }

/-- The call made right after `reset()` with the warmed-up static history
still in place. -/
def c4_run : Option (MotionResult × DetectorState × JpegStatics) :=
  detect (reset initialState) jwu_j3 c4_f160 5000 true true

/-- The same call made on a freshly constructed engine with pristine
statics. -/
def c4_fresh : Option (MotionResult × DetectorState × JpegStatics) :=
  detect initialState initJpegStatics c4_f160 5000 true true

/-- A ready detector state with a stored all-zero 64×64 baseline, used to
instantiate the universally quantified theorems at a concrete input. -/
def wstate : DetectorState :=
  { config := defaultConfig, prevFrame := some c1_buf0, prevWidth := 64,
    prevHeight := 64, lastDetectionTime := 0 }

/-- `wstate` reconfigured with `minSizePercent = 10`, so that a single
changed 16×16 block of a 64×64 frame (6.25 % of the area) falls below the
minimum size. -/
def wstateMin10 : DetectorState :=
  { config := { defaultConfig with minSizePercent := 10 },
    prevFrame := some c1_buf0, prevWidth := 64, prevHeight := 64,
    lastDetectionTime := 0 }

/-- `wstate` reconfigured with `blockSize = 256`: the `uint16_t` per-block
pixel count wraps to zero.  The stored baseline pretends dimensions
256×256. -/
def wstate256 : DetectorState :=
  { config := { defaultConfig with blockSize := 256 },
    prevFrame := some c1_buf0, prevWidth := 256, prevHeight := 256,
    lastDetectionTime := 0 }

/-- An all-zero 256×256 grayscale frame for the wrap scenario. -/
def c9_frame : Frame :=
  { format := PixFormat.grayscale, width := 256, height := 256,
    buf := some c1_buf0, len := 65536 }

/-- A grayscale frame with a null data pointer. -/
def nullFrame : Frame :=
  { format := PixFormat.grayscale, width := 64, height := 64,
    buf := none, len := 4096 }

/-- A valid-looking frame in an unsupported pixel format. -/
def otherFrame : Frame :=
  { format := PixFormat.other, width := 64, height := 64,
    buf := some c1_buf0, len := 4096 }

/-! ### Theorems

The Batteries rational operations are `@[irreducible]`, which blocks
`decide` only in the elaborator; the kernel re-checks every proof in full.
They are unsealed locally so that concrete runs evaluate. -/

attribute [local semireducible] Rat.mul Rat.inv Rat.add Rat.sub

set_option maxRecDepth 1000000

/-- Projection of a present detection step: the result component. -/
theorem resultOf_some (x : MotionResult × DetectorState × JpegStatics) :
    resultOf (some x) = x.1 := rfl

/-- Projection of a present detection step: the state component. -/
theorem stateOf_some (x : MotionResult × DetectorState × JpegStatics)
    (d : DetectorState) : stateOf (some x) d = x.2.1 := rfl

/-- Projection of a present detection step: the statics component. -/
theorem staticsOf_some (x : MotionResult × DetectorState × JpegStatics)
    (d : JpegStatics) : staticsOf (some x) d = x.2.2 := rfl

/-- The first-observation branch never touches the cooldown timestamp. -/
theorem firstObservation_lastDetectionTime (s : DetectorState)
    (buf : Nat → Nat) (w h : Nat) (a b : Bool) :
    (firstObservation s buf w h a b).lastDetectionTime =
      s.lastDetectionTime := by
  unfold firstObservation allocatePrevFrame
  by_cases hab : (a || b) = true
  · simp [hab]
  · simp [hab]

/-- With a positive block size whose square does not wrap the `uint16_t`
pixel count, the block comparison never reaches a division by zero. -/
theorem compareFrames_isSome (cfg : MotionConfig) (cur prev : Nat → Nat)
    (w h : Nat) (h1 : 0 < cfg.blockSize)
    (h2 : cfg.blockSize * cfg.blockSize < 65536) :
    compareFrames cfg cur prev w h ≠ none := by
  have hbs : ¬ cfg.blockSize = 0 := Nat.pos_iff_ne_zero.mp h1
  have hpib : ¬ pixelsInBlock cfg.blockSize = 0 := by
    unfold pixelsInBlock
    rw [Nat.mod_eq_of_lt h2]
    exact Nat.mul_ne_zero hbs hbs
  unfold compareFrames
  simp only [hbs, hpib, if_false, false_and, ite_false]
  split <;> simp

/-- Length of a flatMap is the sum of the pieces' lengths. -/
theorem length_flatMap_sum {α β : Type} (l : List α) (f : α → List β) :
    (l.flatMap f).length = (l.map (fun a => (f a).length)).sum := by
  induction l with
  | nil => rfl
  | cons a t ih => simp [List.flatMap_cons, ih]

/-- The number of changed coordinates collected by the block loop is the
grid count of the changed-block test. -/
theorem changedCoords_length (cfg : MotionConfig) (cur prev : Nat → Nat)
    (width bX bY : Nat) :
    (changedCoords cfg cur prev width bX bY).length =
      countGrid (isChangedBlock cfg cur prev width) bX bY := by
  unfold changedCoords countGrid
  rw [length_flatMap_sum]
  simp [List.length_map]

/-- Grid counts agree for pointwise-equal predicates. -/
theorem countGrid_congr (p q : Nat → Nat → Bool) (bX bY : Nat)
    (h : ∀ bi bj, p bi bj = q bi bj) :
    countGrid p bX bY = countGrid q bX bY := by
  unfold countGrid
  have hf : ∀ bj, (List.range bX).filter (fun bi => p bi bj) =
      (List.range bX).filter (fun bi => q bi bj) := by
    intro bj
    apply List.filter_congr
    intro x _
    exact h x bj
  simp only [hf]

/-- A single absolute byte difference is at most 255. -/
theorem pdiff_pix_le (f g : Nat → Nat) (i k : Nat) :
    pdiff (pix f i) (pix g k) ≤ 255 := by
  unfold pdiff pix
  have h1 : f i % 256 < 256 := Nat.mod_lt _ (by decide)
  have h2 : g k % 256 < 256 := Nat.mod_lt _ (by decide)
  exact le_trans (Nat.sub_le _ _) (Nat.lt_succ_iff.mp (max_lt h1 h2))

/-- The accumulated block difference is at most `255 · blockSize²`, so the
average fits a byte and the `uint8_t` narrowing is lossless. -/
theorem blockDiffSum_le (cur prev : Nat → Nat) (width bs bi bj : Nat) :
    blockDiffSum cur prev width bs bi bj ≤ 255 * (bs * bs) := by
  unfold blockDiffSum
  calc (∑ py ∈ Finset.range bs, ∑ px ∈ Finset.range bs,
        pdiff (pix cur ((bj * bs + py) * width + (bi * bs + px)))
              (pix prev ((bj * bs + py) * width + (bi * bs + px))))
      ≤ ∑ _py ∈ Finset.range bs, 255 * bs := by
        apply Finset.sum_le_sum
        intro py _
        calc (∑ px ∈ Finset.range bs,
              pdiff (pix cur ((bj * bs + py) * width + (bi * bs + px)))
                    (pix prev ((bj * bs + py) * width + (bi * bs + px))))
            ≤ ∑ _px ∈ Finset.range bs, 255 := by
              apply Finset.sum_le_sum
              intro px _
              exact pdiff_pix_le _ _ _ _
          _ = 255 * bs := by
              rw [Finset.sum_const, Finset.card_range, smul_eq_mul]
              ring
    _ = 255 * (bs * bs) := by
        rw [Finset.sum_const, Finset.card_range, smul_eq_mul]
        ring

/-- With a positive block size whose square does not wrap, the `uint8_t`
average equals the truncated integer mean over `blockSize²` pixels. -/
theorem avgDiff_eq_truncMean (cur prev : Nat → Nat) (width bs bi bj : Nat)
    (h1 : 0 < bs) (h2 : bs * bs < 65536) :
    avgDiff cur prev width bs bi bj =
      blockDiffSum cur prev width bs bi bj / (bs * bs) := by
  unfold avgDiff pixelsInBlock
  rw [Nat.mod_eq_of_lt h2]
  apply Nat.mod_eq_of_lt
  have hb := blockDiffSum_le cur prev width bs bi bj
  have hpos : 0 < bs * bs := Nat.mul_pos h1 h1
  have hq : blockDiffSum cur prev width bs bi bj / (bs * bs) ≤
      255 * (bs * bs) / (bs * bs) := Nat.div_le_div_right hb
  rw [Nat.mul_div_cancel _ hpos] at hq
  omega

/-- Under the same preconditions the source's changed-block test agrees
with the truncated-mean criterion. -/
theorem isChangedBlock_eq_truncMeanChanged (cfg : MotionConfig)
    (cur prev : Nat → Nat) (width bi bj : Nat) (h1 : 0 < cfg.blockSize)
    (h2 : cfg.blockSize * cfg.blockSize < 65536) :
    isChangedBlock cfg cur prev width bi bj =
      truncMeanChanged cfg cur prev width bi bj := by
  unfold isChangedBlock truncMeanChanged
  rw [avgDiff_eq_truncMean _ _ _ _ _ _ h1 h2]

/-- The size filter leaves `changedBlocks` untouched. -/
theorem applySizeFilter_changedBlocks (cfg : MotionConfig)
    (r : MotionResult) :
    (applySizeFilter cfg r).changedBlocks = r.changedBlocks := by
  unfold applySizeFilter
  split
  · rfl
  · split
    · rfl
    · rfl

/-- The size filter leaves `sizePercent` untouched. -/
theorem applySizeFilter_sizePercent (cfg : MotionConfig)
    (r : MotionResult) :
    (applySizeFilter cfg r).sizePercent = r.sizePercent := by
  unfold applySizeFilter
  split
  · rfl
  · split
    · rfl
    · rfl

/-- Assigning the confidence after the size filter, as the source does,
is the same as filtering the fully assembled raw detection: the filter
reads only `sizePercent` and writes only `sizeFiltered` and `detected`. -/
theorem applySizeFilter_confidence_comm (cfg : MotionConfig)
    (r : MotionResult) :
    ({ applySizeFilter cfg { r with confidence := 0 } with
       confidence := r.confidence }) = applySizeFilter cfg r := by
  unfold applySizeFilter
  by_cases ha : r.sizePercent < cfg.minSizePercent
  · simp [ha]
  · by_cases hb : cfg.maxSizePercent < r.sizePercent
    · simp [ha, hb]
    · simp [ha, hb]

/-- Inversion for a defined block comparison: either no block changed and
the result is empty apart from `totalBlocks`, or the result is the size
filter applied to the raw measured detection. -/
theorem compareFrames_eq_cases (cfg : MotionConfig) (cur prev : Nat → Nat)
    (w h : Nat) (r : MotionResult)
    (hr : compareFrames cfg cur prev w h = some r) :
    (r = { emptyResult with
           totalBlocks := w / cfg.blockSize * (h / cfg.blockSize) } ∧
      (changedCoords cfg cur prev w (w / cfg.blockSize)
          (h / cfg.blockSize)).length = 0) ∨
    (r = applySizeFilter cfg (rawDetection cfg cur prev w h) ∧
      (changedCoords cfg cur prev w (w / cfg.blockSize)
          (h / cfg.blockSize)).length ≠ 0) := by
  unfold compareFrames at hr
  by_cases h0 : cfg.blockSize = 0
  · rw [if_pos h0] at hr
    cases hr
  rw [if_neg h0] at hr
  by_cases hpz : pixelsInBlock cfg.blockSize = 0 ∧
      0 < w / cfg.blockSize ∧ 0 < h / cfg.blockSize
  · rw [if_pos hpz] at hr
    cases hr
  rw [if_neg hpz] at hr
  by_cases hz : (changedCoords cfg cur prev w (w / cfg.blockSize)
      (h / cfg.blockSize)).length = 0
  · rw [if_pos hz] at hr
    exact Or.inl ⟨(Option.some.inj hr).symm, hz⟩
  · rw [if_neg hz] at hr
    refine Or.inr ⟨?_, hz⟩
    rw [← Option.some.inj hr]
    exact (applySizeFilter_confidence_comm cfg
      (rawDetection cfg cur prev w h)).symm ▸
      (applySizeFilter_confidence_comm cfg (rawDetection cfg cur prev w h))

/-- For a defined comparison under a non-wrapping positive block size, the
reported `changedBlocks` is the number of grid blocks whose truncated
integer mean difference exceeds the threshold. -/
theorem compareFrames_changedBlocks (cfg : MotionConfig)
    (cur prev : Nat → Nat) (w h : Nat) (r : MotionResult)
    (hr : compareFrames cfg cur prev w h = some r)
    (h1 : 0 < cfg.blockSize)
    (h2 : cfg.blockSize * cfg.blockSize < 65536) :
    r.changedBlocks = countGrid (truncMeanChanged cfg cur prev w)
      (w / cfg.blockSize) (h / cfg.blockSize) := by
  have hcc : countGrid (isChangedBlock cfg cur prev w)
      (w / cfg.blockSize) (h / cfg.blockSize) =
      countGrid (truncMeanChanged cfg cur prev w)
        (w / cfg.blockSize) (h / cfg.blockSize) :=
    countGrid_congr _ _ _ _
      (fun bi bj => isChangedBlock_eq_truncMeanChanged cfg cur prev w bi bj h1 h2)
  rcases compareFrames_eq_cases cfg cur prev w h r hr with ⟨hre, hz⟩ | ⟨hre, _⟩
  · rw [hre]
    show (0 : Nat) = _
    rw [← hcc, ← changedCoords_length, hz]
  · rw [hre, applySizeFilter_changedBlocks]
    show (changedCoords cfg cur prev w (w / cfg.blockSize)
      (h / cfg.blockSize)).length = _
    rw [changedCoords_length, hcc]

/-- C1: for the 64×64 stream with the default configuration
(blockSize 16, threshold 25, bounds 1–30 %), baseline all zeros and a
second frame with one grid-aligned 16×16 block at 100, the second call
returns totalBlocks 16, changedBlocks 1, bounding box (16, 16) with
width = height = 16, sizePercent 6.25, detected, not size-filtered, and
confidence 0.3125; the first call returns the empty result. -/
theorem c1_localized_change :
    resultOf c1_run2 =
      { detected := true, sizeFiltered := false, x := 16, y := 16,
        width := 16, height := 16, sizePercent := 25/4, changedBlocks := 1,
        totalBlocks := 16, confidence := 5/16 } ∧
    c1_run2.isSome = true ∧
    resultOf c1_run1 = emptyResult := by
  decide

/-- C3: with warm-up complete (history `[100, 100, 100]`, previous length
100) a frame of 102 bytes deviates from the rolling average by exactly 2 %,
yet the call returns the empty result: `detected = false` as the claim
says, but `sizeFiltered = false`, because the `deviation < 3` noise branch
is nested inside `deviation > 10` and can never execute. -/
theorem c3_noise_branch_unreachable :
    jwu_j3 = { prevJpegSize := 100, hist := [100, 100, 100, 0, 0],
               historyIdx := 3 } ∧
    ((jwu_j3.hist.set jwu_j3.historyIdx c3_f102.len).filter
        (fun v => decide (0 < v))).length = 4 ∧
    ((jwu_j3.hist.set jwu_j3.historyIdx c3_f102.len).filter
        (fun v => decide (0 < v))).sum / 4 = 100 ∧
    |(c3_f102.len : ℚ) - (100 : ℚ)| / (100 : ℚ) * 100 = 2 ∧
    resultOf c3_run4 = emptyResult := by
  decide

/-- C4 counterexample: the JPEG size history is function-local static
state, so `reset()` does not clear it.  After warm-up and a `reset()`, a
160-byte frame is immediately accepted (`detected = true`), while the same
call on a freshly constructed engine with pristine statics is still in
warm-up (`detected = false`): after `reset()` the engine does not behave
as freshly constructed. -/
theorem c4_reset_keeps_history_counterexample :
    jwu_j3 = { prevJpegSize := 100, hist := [100, 100, 100, 0, 0],
               historyIdx := 3 } ∧
    (resultOf c4_run).detected = true ∧
    (resultOf c4_fresh).detected = false := by
  decide

/-- C4 (amended): `reset()` releases the previous-frame buffer, zeroes the
stored dimensions and clears the cooldown timestamp, preserving the
configuration; the JPEG size history lives outside the object state and is
untouched. -/
theorem c4_reset_clears_member_state :
    ∀ s : DetectorState,
      reset s = { config := s.config, prevFrame := none, prevWidth := 0,
                  prevHeight := 0, lastDetectionTime := 0 } := by
  intro s
  rfl

/-- C7: a frame with a null data pointer or zero length, or one in an
unsupported pixel format, yields the all-false result and leaves the
detector state and the JPEG statics untouched. -/
theorem c7_invalid_frame_no_mutation :
    ∀ (s : DetectorState) (j : JpegStatics) (f : Frame) (now : Nat)
      (a b : Bool),
      f.buf = none ∨ f.len = 0 ∨ f.format = PixFormat.other →
      detect s j f now a b = some (emptyResult, s, j) := by
  intro s j f now a b h
  rcases hb : f.buf with _ | buf
  · simp [detect, hb]
  · rcases h with h | h | h
    · rw [hb] at h
      exact absurd h (by simp)
    · simp [detect, hb, h]
    · by_cases hlen : f.len = 0
      · simp [detect, hb, hlen]
      · by_cases hcd : u32elapsed now s.lastDetectionTime < s.config.cooldownMs
        · simp [detect, hb, hlen, hcd]
        · simp [detect, hb, hlen, hcd, h]

/-- C7 witness: the theorem applied to a null-pointer frame and to an
unsupported-format frame at a ready state. -/
theorem c7_invalid_frame_no_mutation_witness :
    detect wstate initJpegStatics nullFrame 5000 true true =
      some (emptyResult, wstate, initJpegStatics) ∧
    detect wstate initJpegStatics otherFrame 5000 true true =
      some (emptyResult, wstate, initJpegStatics) :=
  ⟨c7_invalid_frame_no_mutation _ _ _ _ _ _ (Or.inl rfl),
   c7_invalid_frame_no_mutation _ _ _ _ _ _ (Or.inr (Or.inr rfl))⟩

/-- C10: a freshly constructed detector, and any detector right after
`reset()`, has `lastDetectionTime = 0`; consequently, while the clock
reading is still below `cooldownMs`, every call returns the all-false
result and stores no baseline, although no detection was ever accepted. -/
theorem c10_startup_cooldown_gate :
    initialState.lastDetectionTime = 0 ∧
    (∀ s : DetectorState, (reset s).lastDetectionTime = 0) ∧
    ∀ (t : DetectorState) (j : JpegStatics) (f : Frame) (now : Nat)
      (a b : Bool),
      t.lastDetectionTime = 0 → 0 < t.config.cooldownMs →
      now % M32 < t.config.cooldownMs →
      detect t j f now a b = some (emptyResult, t, j) := by
  refine ⟨rfl, fun s => rfl, ?_⟩
  intro t j f now a b h0 hpos hlt
  rcases hb : f.buf with _ | buf
  · simp [detect, hb]
  · have hcd : u32elapsed now t.lastDetectionTime < t.config.cooldownMs := by
      rw [h0]
      unfold u32elapsed M32
      unfold M32 at hlt
      omega
    by_cases hlen : f.len = 0
    · simp [detect, hb, hlen]
    · simp [detect, hb, hlen, hcd]

/-- C10 witness: the theorem applied to the fresh detector at clock value
100, below the default 2000 ms cooldown. -/
theorem c10_startup_cooldown_gate_witness :
    detect initialState initJpegStatics c1_frame0 100 true true =
      some (emptyResult, initialState, initJpegStatics) :=
  c10_startup_cooldown_gate.2.2 _ _ _ _ _ _ rfl (by decide) (by decide)

/-- C5: a valid-frame call during the cooldown window returns the
all-false result with the detector state and the JPEG statics untouched,
and every defined call updates `lastDetectionTime` exactly when the final
result has `detected = true` (to the clock reading, truncated to 32 bits),
leaving it unchanged otherwise. -/
theorem c5_cooldown_suppression :
    (∀ (s : DetectorState) (j : JpegStatics) (f : Frame) (now : Nat)
       (a b : Bool) (buf : Nat → Nat),
      f.buf = some buf → f.len ≠ 0 →
      u32elapsed now s.lastDetectionTime < s.config.cooldownMs →
      detect s j f now a b = some (emptyResult, s, j)) ∧
    (∀ (s : DetectorState) (j : JpegStatics) (f : Frame) (now : Nat)
       (a b : Bool),
      (detect s j f now a b).isSome = true →
      (stateOf (detect s j f now a b) s).lastDetectionTime =
        if (resultOf (detect s j f now a b)).detected then now % M32
        else s.lastDetectionTime) := by
  constructor
  · intro s j f now a b buf hb hlen hcd
    simp [detect, hb, hlen, hcd]
  · intro s j f now a b hs
    rcases hb : f.buf with _ | buf
    · simp [detect, hb, stateOf, resultOf, emptyResult]
    by_cases hlen : f.len = 0
    · simp [detect, hb, hlen, stateOf, resultOf, emptyResult]
    by_cases hcd : u32elapsed now s.lastDetectionTime < s.config.cooldownMs
    · simp [detect, hb, hlen, hcd, stateOf, resultOf, emptyResult]
    rcases hfmt : f.format
    · rcases hp : s.prevFrame with _ | prev
      · simp [detect, hb, hlen, hcd, hfmt, hp, stateOf, resultOf,
          emptyResult, firstObservation_lastDetectionTime]
      by_cases hd : s.prevWidth ≠ f.width ∨ s.prevHeight ≠ f.height
      · simp [detect, hb, hlen, hcd, hfmt, hp, hd, stateOf, resultOf,
          emptyResult, firstObservation_lastDetectionTime]
      rcases hc : compareFrames s.config buf prev f.width f.height with _ | r
      · rw [detect] at hs
        simp [hb, hlen, hcd, hfmt, hp, hd, hc] at hs
      · simp [detect, hb, hlen, hcd, hfmt, hp, hd, hc, stateOf, resultOf]
    · have hstep : detect s j f now a b =
          some (detectFromJpegSize s j f now) := by
        simp [detect, hb, hlen, hcd, hfmt]
      rw [hstep, resultOf_some, stateOf_some]
      simp only [detectFromJpegSize]
      split
      · simp [emptyResult]
      · split
        · split
          · split
            · simp
            · split <;> simp
          · simp [emptyResult]
        · split
          · split
            · simp
            · split <;> simp
          · simp [emptyResult]
    · simp [detect, hb, hlen, hcd, hfmt, stateOf, resultOf, emptyResult]

/-- C5 witness: the theorem applied at a ready state — a call at clock
value 100 (inside the 2000 ms cooldown measured from timestamp 0) is
suppressed without mutation, and the update rule instantiated at an
accepted detection at clock value 4000. -/
theorem c5_cooldown_suppression_witness :
    detect wstate initJpegStatics c1_frame1 100 true true =
      some (emptyResult, wstate, initJpegStatics) ∧
    (stateOf (detect wstate initJpegStatics c1_frame1 4000 true true)
        wstate).lastDetectionTime =
      if (resultOf (detect wstate initJpegStatics c1_frame1 4000 true
          true)).detected then 4000 % M32 else wstate.lastDetectionTime :=
  ⟨c5_cooldown_suppression.1 _ _ _ _ _ _ c1_buf1 rfl (by decide) (by decide),
   c5_cooldown_suppression.2 _ _ _ _ _ _ (by decide)⟩

/-- C8: when both allocation attempts fail on a first observation (or a
dimension change), the call returns the all-false result and clears the
stored dimensions, so the next call with the same frame re-enters the
first-observation branch and, if allocation then succeeds, stores the
baseline as if starting fresh. -/
theorem c8_allocation_failure_retries :
    ∀ (s : DetectorState) (j : JpegStatics) (f : Frame) (now : Nat)
      (buf : Nat → Nat),
      f.format = PixFormat.grayscale → f.buf = some buf → f.len ≠ 0 →
      ¬ u32elapsed now s.lastDetectionTime < s.config.cooldownMs →
      (s.prevFrame = none ∨ s.prevWidth ≠ f.width ∨ s.prevHeight ≠ f.height) →
      detect s j f now false false =
        some (emptyResult,
          { s with prevFrame := none, prevWidth := 0, prevHeight := 0 }, j) ∧
      ∀ now2 : Nat,
        ¬ u32elapsed now2 s.lastDetectionTime < s.config.cooldownMs →
        detect { s with prevFrame := none, prevWidth := 0, prevHeight := 0 }
            j f now2 true true =
          some (emptyResult,
            { s with
              prevFrame := some buf, prevWidth := f.width,
              prevHeight := f.height }, j) := by
  intro s j f now buf hfmt hb hlen hcd hfirst
  constructor
  · rcases hfirst with hp | hd
    · simp [detect, hb, hlen, hcd, hfmt, hp, firstObservation,
        allocatePrevFrame]
    · rcases hp : s.prevFrame with _ | prev
      · simp [detect, hb, hlen, hcd, hfmt, hp, firstObservation,
          allocatePrevFrame]
      · simp [detect, hb, hlen, hcd, hfmt, hp, hd, firstObservation,
          allocatePrevFrame]
  · intro now2 hcd2
    simp [detect, hb, hlen, hcd2, hfmt, firstObservation, allocatePrevFrame]

/-- C8 witness: the theorem applied to a fresh-config state with no
baseline and a valid 64×64 grayscale frame, alloc failing then
succeeding. -/
theorem c8_allocation_failure_retries_witness :
    detect initialState initJpegStatics c1_frame1 4000 false false =
      some (emptyResult,
        { initialState with
          prevFrame := none, prevWidth := 0, prevHeight := 0 },
        initJpegStatics) ∧
    detect
        { initialState with
          prevFrame := none, prevWidth := 0, prevHeight := 0 }
        initJpegStatics c1_frame1 6000 true true =
      some (emptyResult,
        { initialState with
          prevFrame := some c1_buf1, prevWidth := 64, prevHeight := 64 },
        initJpegStatics) := by
  have h := c8_allocation_failure_retries initialState initJpegStatics
    c1_frame1 4000 c1_buf1 rfl rfl (by decide) (by decide) (Or.inl rfl)
  exact ⟨h.1, h.2 6000 (by decide)⟩

/-- C9: with `blockSize = 256` the `uint16_t` pixel count
`blockSize * blockSize` wraps to 0, and once a baseline of matching
dimensions is present any grayscale frame at least 256 pixels wide and
tall drives the per-block average into a division by zero (the model's
undefined-behaviour outcome `none`); under the stronger precondition
`0 < blockSize` and `blockSize² < 65536` every call is defined. -/
theorem c9_blocksize_wrap_division :
    pixelsInBlock 256 = 0 ∧
    (∀ (s : DetectorState) (j : JpegStatics) (f : Frame) (now : Nat)
       (a b : Bool) (buf prev : Nat → Nat),
      s.config.blockSize = 256 →
      f.format = PixFormat.grayscale → f.buf = some buf → f.len ≠ 0 →
      ¬ u32elapsed now s.lastDetectionTime < s.config.cooldownMs →
      s.prevFrame = some prev → s.prevWidth = f.width →
      s.prevHeight = f.height → 256 ≤ f.width → 256 ≤ f.height →
      detect s j f now a b = none) ∧
    (∀ (s : DetectorState) (j : JpegStatics) (f : Frame) (now : Nat)
       (a b : Bool),
      0 < s.config.blockSize →
      s.config.blockSize * s.config.blockSize < 65536 →
      detect s j f now a b ≠ none) := by
  refine ⟨rfl, ?_, ?_⟩
  · intro s j f now a b buf prev hbs hfmt hb hlen hcd hp hw hh hwge hhge
    have hc : compareFrames s.config buf prev f.width f.height = none := by
      unfold compareFrames
      rw [hbs]
      have hx : 0 < f.width / 256 := Nat.div_pos hwge (by decide)
      have hy : 0 < f.height / 256 := Nat.div_pos hhge (by decide)
      simp [pixelsInBlock, hx, hy]
    simp [detect, hb, hlen, hcd, hfmt, hp, hw, hh, hc]
  · intro s j f now a b h1 h2
    rcases hb : f.buf with _ | buf
    · simp [detect, hb]
    by_cases hlen : f.len = 0
    · simp [detect, hb, hlen]
    by_cases hcd : u32elapsed now s.lastDetectionTime < s.config.cooldownMs
    · simp [detect, hb, hlen, hcd]
    rcases hfmt : f.format
    · rcases hp : s.prevFrame with _ | prev
      · simp [detect, hb, hlen, hcd, hfmt, hp]
      by_cases hd : s.prevWidth ≠ f.width ∨ s.prevHeight ≠ f.height
      · simp [detect, hb, hlen, hcd, hfmt, hp, hd]
      rcases hc : compareFrames s.config buf prev f.width f.height with _ | r
      · exact absurd hc (compareFrames_isSome _ _ _ _ _ h1 h2)
      · simp [detect, hb, hlen, hcd, hfmt, hp, hd, hc]
    · simp [detect, hb, hlen, hcd, hfmt]
    · simp [detect, hb, hlen, hcd, hfmt]

/-- C9 witness: the wrap case instantiated at a 256×256 stream with
`blockSize = 256` (undefined division), and the well-defined case at the
default configuration. -/
theorem c9_blocksize_wrap_division_witness :
    detect wstate256 initJpegStatics c9_frame 4000 true true = none ∧
    detect wstate initJpegStatics c1_frame1 4000 true true ≠ none :=
  ⟨c9_blocksize_wrap_division.2.1 _ _ _ _ _ _ c1_buf0 c1_buf0 rfl rfl rfl
      (by decide) (by decide) rfl rfl rfl (by decide) (by decide),
   c9_blocksize_wrap_division.2.2 _ _ _ _ _ _ (by decide) (by decide)⟩

/-- C2 counterexample: in the single-block 16×16 scenario the block's
exact mean absolute difference is `6401/256 ≈ 25.004`, strictly above the
threshold 25 (the spec-worded count is 1), yet the code counts
`changedBlocks = 0`, because it compares the truncated integer mean
`6401 / 256 = 25`. -/
theorem c2_exact_mean_counterexample :
    (resultOf c2_run2).totalBlocks = 1 ∧
    (resultOf c2_run2).changedBlocks = 0 ∧
    countGrid (specExactMeanChanged defaultConfig c2_buf1 c2_buf0 16) 1 1 = 1 ∧
    c2_run2.isSome = true := by
  decide

/-- C2 (amended): in every defined comparison of two same-dimension
grayscale frames (baseline present, cooldown expired, block size positive
and non-wrapping), a block is counted in `changedBlocks` exactly when its
truncated integer mean absolute difference `⌊blockDiff / blockSize²⌋`
exceeds the threshold — not the exact rational mean. -/
theorem c2_changed_blocks_truncated_mean :
    ∀ (s : DetectorState) (j : JpegStatics) (f : Frame) (now : Nat)
      (a b : Bool) (buf prev : Nat → Nat),
      f.format = PixFormat.grayscale → f.buf = some buf → f.len ≠ 0 →
      ¬ u32elapsed now s.lastDetectionTime < s.config.cooldownMs →
      s.prevFrame = some prev → s.prevWidth = f.width →
      s.prevHeight = f.height → 0 < s.config.blockSize →
      s.config.blockSize * s.config.blockSize < 65536 →
      (resultOf (detect s j f now a b)).changedBlocks =
        countGrid (truncMeanChanged s.config buf prev f.width)
          (f.width / s.config.blockSize) (f.height / s.config.blockSize) := by
  intro s j f now a b buf prev hfmt hb hlen hcd hp hw hh h1 h2
  rcases hc : compareFrames s.config buf prev f.width f.height with _ | r
  · exact absurd hc (compareFrames_isSome _ _ _ _ _ h1 h2)
  · have hstep : detect s j f now a b =
        some (r,
          { s with
            prevFrame := some buf,
            lastDetectionTime :=
              if r.detected then now % M32 else s.lastDetectionTime }, j) := by
      simp [detect, hb, hlen, hcd, hfmt, hp, hw, hh, hc]
    rw [hstep, resultOf_some]
    exact compareFrames_changedBlocks _ _ _ _ _ _ hc h1 h2

/-- C2 witness: the amended rule applied to the localized-change run
(64×64 frame, default configuration). -/
theorem c2_changed_blocks_truncated_mean_witness :
    (resultOf (detect wstate initJpegStatics c1_frame1 4000 true
        true)).changedBlocks =
      countGrid (truncMeanChanged defaultConfig c1_buf1 c1_buf0 64) 4 4 :=
  c2_changed_blocks_truncated_mean wstate initJpegStatics c1_frame1 4000
    true true c1_buf1 c1_buf0 rfl rfl (by decide) (by decide) rfl rfl rfl
    (by decide) (by decide)

/-- C6: for every defined block comparison whose raw detection has
`changedBlocks > 0`, an out-of-bounds `sizePercent` yields the raw
measured detection with only `sizeFiltered` forced true and `detected`
forced false (geometry, size, counts and confidence preserved); an
in-bounds `sizePercent` passes the raw detection through unchanged, with
`sizeFiltered = false` and `detected = true`. -/
theorem c6_size_filter_reclassification :
    ∀ (cfg : MotionConfig) (cur prev : Nat → Nat) (w h : Nat)
      (r : MotionResult),
      compareFrames cfg cur prev w h = some r →
      0 < r.changedBlocks →
      ((r.sizePercent < cfg.minSizePercent ∨
          cfg.maxSizePercent < r.sizePercent) →
        r = { rawDetection cfg cur prev w h with
              sizeFiltered := true, detected := false }) ∧
      ((cfg.minSizePercent ≤ r.sizePercent ∧
          r.sizePercent ≤ cfg.maxSizePercent) →
        r = rawDetection cfg cur prev w h) := by
  intro cfg cur prev w h r hr hpos
  rcases compareFrames_eq_cases cfg cur prev w h r hr with ⟨hre, _⟩ | ⟨hre, _⟩
  · rw [hre] at hpos
    exact absurd hpos (by simp [emptyResult])
  · subst hre
    constructor
    · intro hout
      rw [applySizeFilter_sizePercent] at hout
      unfold applySizeFilter
      rcases hout with hlt | hgt
      · rw [if_pos hlt]
      · by_cases hlt2 : (rawDetection cfg cur prev w h).sizePercent <
            cfg.minSizePercent
        · rw [if_pos hlt2]
        · rw [if_neg hlt2, if_pos hgt]
    · intro hin
      rw [applySizeFilter_sizePercent] at hin
      unfold applySizeFilter
      rw [if_neg (not_lt.mpr hin.1), if_neg (not_lt.mpr hin.2)]

/-- C6 witness: with `minSizePercent = 10` the single changed 16×16 block
of a 64×64 frame (6.25 % of the area) is size-filtered: the result is the
raw measured detection with `sizeFiltered := true`, `detected := false`,
all measured fields intact. -/
theorem c6_size_filter_reclassification_witness :
    ({ detected := false, sizeFiltered := true, x := 16, y := 16,
       width := 16, height := 16, sizePercent := 25/4, changedBlocks := 1,
       totalBlocks := 16, confidence := 5/16 } : MotionResult) =
      { rawDetection { defaultConfig with minSizePercent := 10 } c1_buf1
          c1_buf0 64 64 with
        sizeFiltered := true, detected := false } :=
  (c6_size_filter_reclassification
      { defaultConfig with minSizePercent := 10 } c1_buf1 c1_buf0 64 64
      { detected := false, sizeFiltered := true, x := 16, y := 16,
        width := 16, height := 16, sizePercent := 25/4, changedBlocks := 1,
        totalBlocks := 16, confidence := 5/16 }
      (by decide) (by decide)).1 (by decide)

end Scout
